import Mathlib

/-! Verification development for the reajuste calculation engine
(src/src/utils/decimal_utils.py and src/src/services/calculation.py).

The Python code computes with decimal.Decimal under the default context
(precision 28 significant digits, ROUND_HALF_EVEN context rounding), and
truncates results with quantize(..., ROUND_FLOOR).  A finite Decimal is a
value of the form coefficient times a power of ten; arithmetic first forms
the exact rational result and then, when it needs more than 28 significant
digits, rounds it half-even at the 28th significant digit.  All operations
the engine performs are value-determined (the coefficient/exponent
representation only affects printing of intermediate values, never the
values or the quantized outputs), so finite Decimal values are embedded as
rationals and each Decimal operation as the exact rational operation
followed by half-even rounding at 28 significant digits.  quantize raises
InvalidOperation when the result coefficient would exceed 28 digits; this
is modelled.  The context exponent limits Emin/Emax (plus or minus 999999)
are not modelled: no value in any claim comes near them. -/

namespace Reajuste

attribute [local semireducible] Rat.mul Rat.add Rat.sub Rat.inv

/-- Number of base-10 digits of a natural number, via a fuel-bounded
descent (fuel n is always enough for n).  digLen 0 = 1, matching the
single-digit coefficient 0. -/
def digLenAux : Nat → Nat → Nat
  | 0, _ => 1
  | fuel+1, n => if n < 10 then 1 else digLenAux fuel (n / 10) + 1

/-- Digit count of a natural number in base 10. -/
def digLen (n : Nat) : Nat := digLenAux n n

/-- Integer power of ten as a rational, for both signs of the exponent. -/
def pow10 (e : Int) : ℚ :=
  if 0 ≤ e then ((10 ^ e.toNat : ℕ) : ℚ) else ((10 ^ (-e).toNat : ℕ) : ℚ)⁻¹

/-- Round a rational to the nearest integer, ties to even: the
ROUND_HALF_EVEN rule of the default decimal context.  Python rounds the
coefficient (the magnitude); half-even is symmetric, so rounding the
signed value agrees with it. -/
def roundHalfEven (q : ℚ) : ℤ :=
  let f := ⌊q⌋
  let r := q - (f : ℚ)
  if r < 1/2 then f
  else if 1/2 < r then f + 1
  else if Even f then f else f + 1

/-- Decimal adjusted exponent of a nonzero rational: the unique d with
10 ^ d ≤ abs q < 10 ^ (d + 1).  The digit-length difference of numerator
and denominator pins d to two candidates; one comparison decides. -/
def decExp (q : ℚ) : ℤ :=
  let a := q.num.natAbs
  let b := q.den
  let d0 : ℤ := (digLen a : ℤ) - (digLen b : ℤ)
  if pow10 d0 ≤ |q| then d0 else d0 - 1

/-- Round a rational to p significant decimal digits, half-even: the
value-level effect of storing an exact intermediate result into a Decimal
under a context with precision p.  Exact results of at most p digits pass
through unchanged. -/
def roundPrec (p : ℕ) (q : ℚ) : ℚ :=
  if q = 0 then 0
  else
    let s := pow10 (decExp q - (p - 1 : ℕ))
    (roundHalfEven (q / s) : ℚ) * s

/-- Decimal division under the engine context: exact quotient, then
rounded to 28 significant digits (callers guard the zero divisor). -/
def divP (a b : ℚ) : ℚ := roundPrec 28 (a / b)

/-- Decimal subtraction under the engine context. -/
def subP (a b : ℚ) : ℚ := roundPrec 28 (a - b)

/-- Decimal multiplication under the engine context. -/
def mulP (a b : ℚ) : ℚ := roundPrec 28 (a * b)

/-- Decimal addition under the engine context. -/
def addP (a b : ℚ) : ℚ := roundPrec 28 (a + b)

/-- Error kinds surfaced by the Python code: TypeError, ValueError, and
decimal.InvalidOperation (raised by quantize on a 28-digit overflow and on
signaling operands). -/
inductive PyErr where
  | typeError
  | valueError
  | invalidOperation
  deriving DecidableEq

/-- Decimal.quantize(10 ^ (-k), rounding=ROUND_FLOOR): floor the value at
k decimal places.  InvalidOperation when the resulting coefficient would
need more than the 28 digits of the context precision. -/
def quantizeFloor (k : ℕ) (q : ℚ) : Except PyErr ℚ :=
  let n := ⌊q * pow10 k⌋
  if n.natAbs < 10 ^ 28 then .ok ((n : ℚ) / pow10 k) else .error .invalidOperation

/-- Value of a (possibly non-finite) Python Decimal.  NaN payload digits
and the sign of a NaN are not tracked. -/
inductive DecVal where
  | num (q : ℚ)
  | nan (signaling : Bool)
  | inf (neg : Bool)
  deriving DecidableEq

/-- The Python values the decimal utilities dispatch on: Decimal, str,
int, float and None, plus a representative of every other object (the
code treats them all alike).  The numeric payload of a float is never
read, only its type. -/
inductive PyVal where
  | dec (d : DecVal)
  | strv (s : String)
  | intv (n : ℤ)
  | floatv (x : ℚ)
  | listv
  | nonev
  deriving DecidableEq

deriving instance DecidableEq for Except

/-- truncate_at_4_decimals of decimal_utils.py: None passes through as
None; a non-Decimal raises TypeError; a finite Decimal is floored at 4
decimal places by quantize(ROUND_FLOOR); a quiet NaN propagates, a
signaling NaN or an infinity raises InvalidOperation. -/
def truncate_at_4_decimals : PyVal → Except PyErr PyVal
  | .nonev => .ok .nonev
  | .dec (.num q) => (quantizeFloor 4 q).map (fun r => .dec (.num r))
  | .dec (.nan false) => .ok (.dec (.nan false))
  | .dec (.nan true) => .error .invalidOperation
  | .dec (.inf _) => .error .invalidOperation
  | _ => .error .typeError

/-- truncate_at_2_decimals of decimal_utils.py: as truncate_at_4_decimals
but flooring at 2 decimal places (cents). -/
def truncate_at_2_decimals : PyVal → Except PyErr PyVal
  | .nonev => .ok .nonev
  | .dec (.num q) => (quantizeFloor 2 q).map (fun r => .dec (.num r))
  | .dec (.nan false) => .ok (.dec (.nan false))
  | .dec (.nan true) => .error .invalidOperation
  | .dec (.inf _) => .error .invalidOperation
  | _ => .error .typeError

/-- calcular_fator_k_truncado of calculation.py on finite Decimal inputs
(ensure_decimal is the identity on them): reject a zero base index, then
reject negative indices, both with ValueError; otherwise compute
K = (I_i / I_0) - 1 in the 28-digit context and floor it at 4 decimals. -/
def calcular_fator_k_truncado (indice_inicial indice_final : ℚ) : Except PyErr ℚ :=
  if indice_inicial = 0 then .error .valueError
  else if indice_inicial < 0 ∨ indice_final < 0 then .error .valueError
  else quantizeFloor 4 (subP (divP indice_final indice_inicial) 1)

/-- calcular_valor_reajuste of calculation.py on finite Decimal inputs:
reject a negative measurement value with ValueError; otherwise compute
R = Vr * K in the 28-digit context and floor it at 2 decimals. -/
def calcular_valor_reajuste (valor_medicao fator_k : ℚ) : Except PyErr ℚ :=
  if valor_medicao < 0 then .error .valueError
  else quantizeFloor 2 (mulP valor_medicao fator_k)

/-- calcular_valor_total_atualizado of calculation.py on finite Decimal
inputs: Vr + R in the 28-digit context, floored at 2 decimals. -/
def calcular_valor_total_atualizado (valor_medicao valor_reajuste : ℚ) : Except PyErr ℚ :=
  quantizeFloor 2 (addP valor_medicao valor_reajuste)

/-- A datetime.date: proleptic Gregorian calendar date (year from 1). -/
structure PyDate where
  year : ℕ
  month : ℕ
  day : ℕ
  deriving DecidableEq

/-- Gregorian leap-year rule. -/
def isLeapYear (y : ℕ) : Bool :=
  y % 4 = 0 && (y % 100 ≠ 0 || y % 400 = 0)

/-- Days in the months strictly before month m of a common year. -/
def daysBeforeMonthCommon : ℕ → ℕ
  | 1 => 0
  | 2 => 31
  | 3 => 59
  | 4 => 90
  | 5 => 120
  | 6 => 151
  | 7 => 181
  | 8 => 212
  | 9 => 243
  | 10 => 273
  | 11 => 304
  | 12 => 334
  | _ => 0

/-- datetime.date.toordinal: day number with 0001-01-01 as day 1.
Subtraction of two dates compares exactly these ordinals. -/
def PyDate.toOrdinal (dt : PyDate) : ℤ :=
  let py : ℤ := (dt.year : ℤ) - 1
  365 * py + py / 4 - py / 100 + py / 400 +
    (daysBeforeMonthCommon dt.month : ℤ) +
    (if 2 < dt.month ∧ isLeapYear dt.year then 1 else 0) +
    (dt.day : ℤ)

/-- Left-pad the decimal rendering of n to 2 digits. -/
def pad2 (n : ℕ) : String :=
  if n < 10 then "0" ++ toString n else toString n

/-- Left-pad the decimal rendering of n to 3 digits. -/
def pad3 (n : ℕ) : String :=
  if n < 10 then "00" ++ toString n
  else if n < 100 then "0" ++ toString n
  else toString n

/-- Left-pad the decimal rendering of n to 4 digits. -/
def pad4 (n : ℕ) : String :=
  if n < 10 then "000" ++ toString n
  else if n < 100 then "00" ++ toString n
  else if n < 1000 then "0" ++ toString n
  else toString n

/-- strftime of the pattern day/month/year used in the interstice
message (format_date_br uses the same pattern). -/
def formatDateBR (dt : PyDate) : String :=
  pad2 dt.day ++ "/" ++ pad2 dt.month ++ "/" ++ pad4 dt.year

/-- validar_intersticio_legal of calculation.py: whole-day difference of
the two dates; below 365 days the interval is invalid and the message
reports the elapsed days and the base date; otherwise it is valid and the
message reports the elapsed days. -/
def validar_intersticio_legal (data_base_orcamento mes_reajuste : PyDate) : Bool × String :=
  let diferenca : ℤ := mes_reajuste.toOrdinal - data_base_orcamento.toOrdinal
  if diferenca < 365 then
    (false,
      "Interstício legal não cumprido. Passaram-se " ++ toString diferenca ++
        (" dias, mas são necessários 365 dias desde a data base do orçamento (" ++
          formatDateBR data_base_orcamento ++ ")."))
  else
    (true,
      "Interstício legal cumprido (" ++ toString diferenca ++
        " dias desde a data base).")

/-- Digit groups of three separated by dots, from the observed
composition format(int, comma-grouping) followed by replacing commas with
dots.  Fuel-bounded descent; fuel n always suffices. -/
def group3Aux : ℕ → ℕ → String
  | 0, n => toString n
  | fuel+1, n =>
      if n < 1000 then toString n
      else group3Aux fuel (n / 1000) ++ "." ++ pad3 (n % 1000)

/-- Dot-grouped thousands rendering of a natural number. -/
def groupThousands (n : ℕ) : String := group3Aux n n

/-- Dot-grouped thousands rendering of an integer, minus sign first. -/
def groupThousandsInt (z : ℤ) : String :=
  (if z < 0 then "-" else "") ++ groupThousands z.natAbs

/-- Integer-part value the formatter obtains from int(integer_part): the
fixed-point 2-decimal rendering of q keeps the sign of q (Decimal keeps
the sign even on -0.00), and int of that text is the signed whole-real
count.  int of the text "-0" is 0, which is where a small negative value
loses its sign. -/
def currencyIntPart (q : ℚ) : ℤ :=
  if q < 0 then -(((roundHalfEven (q * 100)).natAbs / 100 : ℕ) : ℤ)
  else (((roundHalfEven (q * 100)).natAbs / 100 : ℕ) : ℤ)

/-- format_brazilian_currency of decimal_utils.py: None renders as the
zero form; otherwise the value is rendered fixed-point with 2 decimals
(the format .2f rounds half-even under the default context), split at the
point, the integer part regrouped with dots via int() and comma
formatting, and reassembled with a comma before the cents. -/
def format_brazilian_currency : Option ℚ → String
  | Option.none => "R$ 0,00"
  | Option.some q =>
      "R$ " ++ groupThousandsInt (currencyIntPart q) ++
        ("," ++ pad2 ((roundHalfEven (q * 100)).natAbs % 100))

/-- Truncation toward zero at 4 decimal places, as the specification
words it; stated for comparison with the floor-based code. -/
def truncTowardZero4 (q : ℚ) : ℚ :=
  (if 0 ≤ q then (⌊q * 10000⌋ : ℚ) else (⌈q * 10000⌉ : ℚ)) / 10000

/-- pow10 is positive for every exponent. -/
lemma pow10_pos (e : ℤ) : 0 < pow10 e := by
  unfold pow10
  split_ifs
  · exact_mod_cast pow_pos (by norm_num : (0:ℕ) < 10) _
  · exact inv_pos.mpr (by exact_mod_cast pow_pos (by norm_num : (0:ℕ) < 10) _)

/-- pow10 at exponent 4. -/
lemma pow10_four : pow10 4 = 10000 := by decide

/-- Characterization of a successful quantizeFloor. -/
lemma quantizeFloor_ok_iff {k : ℕ} {q y : ℚ} :
    quantizeFloor k q = .ok y ↔
      (⌊q * pow10 k⌋.natAbs < 10 ^ 28 ∧ y = (⌊q * pow10 k⌋ : ℚ) / pow10 k) := by
  simp only [quantizeFloor]
  split_ifs with h
  · constructor
    · intro he
      cases he
      exact ⟨h, rfl⟩
    · rintro ⟨-, rfl⟩
      rfl
  · constructor
    · intro he
      exact absurd he (by simp)
    · rintro ⟨hb, -⟩
      exact absurd hb h

/-- The floored value never exceeds the value being floored. -/
lemma quantizeFloor_le {k : ℕ} {q y : ℚ} (h : quantizeFloor k q = .ok y) : y ≤ q := by
  obtain ⟨-, rfl⟩ := quantizeFloor_ok_iff.mp h
  have hp : (0:ℚ) < pow10 k := pow10_pos _
  rw [div_le_iff₀ hp]
  exact Int.floor_le _

/-- Flooring an already-floored value changes nothing. -/
lemma quantizeFloor_idem {k : ℕ} {q y : ℚ} (h : quantizeFloor k q = .ok y) :
    quantizeFloor k y = .ok y := by
  obtain ⟨hb, rfl⟩ := quantizeFloor_ok_iff.mp h
  refine quantizeFloor_ok_iff.mpr ⟨?_, ?_⟩ <;>
    rw [div_mul_cancel₀ _ (ne_of_gt (pow10_pos (k : ℤ))), Int.floor_intCast]
  · exact hb

/-- Claim C1: the end-to-end scenario values: K(105.4, 105.5) = 0.0009
(not 0.0010); R(10000.00, 0.0009) = 9.00; the total for 10000.00 and 9.00
is 10009.00; and on the borderline product R(12345.67, 0.0009) = 11.11. -/
theorem claim_C1_end_to_end_values :
    calcular_fator_k_truncado (1054/10) (1055/10) = .ok (9/10000) ∧
    calcular_valor_reajuste 10000 (9/10000) = .ok 9 ∧
    calcular_valor_total_atualizado 10000 9 = .ok 10009 ∧
    calcular_valor_reajuste (1234567/100) (9/10000) = .ok (1111/100) :=
  ⟨by decide, by decide, by decide, by decide⟩

/-- Claim C9: format_brazilian_currency renders 1234.56 with dot
thousands-grouping, comma decimal separator, two cent digits and the
currency prefix, and renders an absent value as the zero form. -/
theorem claim_C9_currency_format :
    format_brazilian_currency (Option.some (123456/100)) = "R$ 1.234,56" ∧
    format_brazilian_currency Option.none = "R$ 0,00" :=
  ⟨by decide, by decide⟩

/-- Claim C8, counterexample: a None input does not raise; both
truncation helpers return None unchanged (the code and its tests agree on
this), contradicting the claim that every non-Decimal input fails with a
TypeError-kind error. -/
theorem claim_C8_counterexample :
    truncate_at_4_decimals PyVal.nonev = .ok PyVal.nonev ∧
    truncate_at_2_decimals PyVal.nonev = .ok PyVal.nonev ∧
    ∀ e : PyErr, truncate_at_4_decimals PyVal.nonev ≠ .error e := by
  refine ⟨rfl, rfl, ?_⟩
  intro e h
  exact Except.noConfusion h

/-- Claim C8, amended: every non-Decimal input other than None (int,
float, str, and any other object) makes both truncation helpers fail with
a TypeError-kind error; a None input is passed through as None. -/
theorem claim_C8_amended_type_errors :
    ∀ (n : ℤ) (x : ℚ) (s : String),
      truncate_at_4_decimals (.intv n) = .error .typeError ∧
      truncate_at_4_decimals (.floatv x) = .error .typeError ∧
      truncate_at_4_decimals (.strv s) = .error .typeError ∧
      truncate_at_4_decimals .listv = .error .typeError ∧
      truncate_at_4_decimals .nonev = .ok .nonev ∧
      truncate_at_2_decimals (.intv n) = .error .typeError ∧
      truncate_at_2_decimals (.floatv x) = .error .typeError ∧
      truncate_at_2_decimals (.strv s) = .error .typeError ∧
      truncate_at_2_decimals .listv = .error .typeError ∧
      truncate_at_2_decimals .nonev = .ok .nonev :=
  fun _ _ _ => ⟨rfl, rfl, rfl, rfl, rfl, rfl, rfl, rfl, rfl, rfl⟩

/-- Claim C3: truncation is idempotent at both granularities: a value
successfully truncated at 4 (resp. 2) decimals is left unchanged by a
second truncation. -/
theorem claim_C3_truncation_idempotent :
    ∀ x y : PyVal,
      (truncate_at_4_decimals x = .ok y → truncate_at_4_decimals y = .ok y) ∧
      (truncate_at_2_decimals x = .ok y → truncate_at_2_decimals y = .ok y) := by
  intro x y
  constructor
  · intro h
    cases x with
    | nonev =>
        cases h
        rfl
    | strv s => exact Except.noConfusion h
    | intv n => exact Except.noConfusion h
    | floatv r => exact Except.noConfusion h
    | listv => exact Except.noConfusion h
    | dec d =>
        cases d with
        | num q =>
            cases hq : quantizeFloor 4 q with
            | ok r =>
                simp only [truncate_at_4_decimals, hq, Except.map] at h
                cases h
                simp only [truncate_at_4_decimals, quantizeFloor_idem hq, Except.map]
            | error e =>
                simp only [truncate_at_4_decimals, hq, Except.map] at h
                exact Except.noConfusion h
        | nan b =>
            cases b with
            | false =>
                cases h
                rfl
            | true => exact Except.noConfusion h
        | inf b => exact Except.noConfusion h
  · intro h
    cases x with
    | nonev =>
        cases h
        rfl
    | strv s => exact Except.noConfusion h
    | intv n => exact Except.noConfusion h
    | floatv r => exact Except.noConfusion h
    | listv => exact Except.noConfusion h
    | dec d =>
        cases d with
        | num q =>
            cases hq : quantizeFloor 2 q with
            | ok r =>
                simp only [truncate_at_2_decimals, hq, Except.map] at h
                cases h
                simp only [truncate_at_2_decimals, quantizeFloor_idem hq, Except.map]
            | error e =>
                simp only [truncate_at_2_decimals, hq, Except.map] at h
                exact Except.noConfusion h
        | nan b =>
            cases b with
            | false =>
                cases h
                rfl
            | true => exact Except.noConfusion h
        | inf b => exact Except.noConfusion h

/-- Witness for claim C3 at concrete inputs. -/
theorem claim_C3_witness :
    truncate_at_4_decimals (.dec (.num (1234/10000))) = .ok (.dec (.num (1234/10000))) ∧
    truncate_at_2_decimals (.dec (.num (99999/100))) = .ok (.dec (.num (99999/100))) :=
  ⟨(claim_C3_truncation_idempotent (.dec (.num (12349/100000))) (.dec (.num (1234/10000)))).1
      (by decide),
   (claim_C3_truncation_idempotent (.dec (.num (999999/1000))) (.dec (.num (99999/100)))).2
      (by decide)⟩

/-- Claim C2, amended: for positive indices, a successfully computed
factor K times 10000 is an integer, and K never exceeds the raw factor
the engine computed in the 28-digit context (the truncation step never
rounds up); whenever that computed raw factor does not exceed the exact
rational quotient minus one, K also stays at or below the exact value.
The unconditional bound against the exact value claimed originally fails,
because the 28-digit half-even division can round the quotient up across
a 4-decimal boundary (see the counterexample). -/
theorem claim_C2_factor_granularity :
    ∀ i0 i1 k : ℚ, 0 < i0 → 0 < i1 →
      calcular_fator_k_truncado i0 i1 = .ok k →
      (∃ m : ℤ, k * 10000 = (m : ℚ)) ∧
      k ≤ subP (divP i1 i0) 1 ∧
      (subP (divP i1 i0) 1 ≤ i1 / i0 - 1 → k ≤ i1 / i0 - 1) := by
  intro i0 i1 k h0 h1 hk
  unfold calcular_fator_k_truncado at hk
  rw [if_neg h0.ne'] at hk
  rw [if_neg (by push_neg; exact ⟨h0.le, h1.le⟩ : ¬(i0 < 0 ∨ i1 < 0))] at hk
  refine ⟨?_, quantizeFloor_le hk, fun hle => le_trans (quantizeFloor_le hk) hle⟩
  obtain ⟨-, rfl⟩ := quantizeFloor_ok_iff.mp hk
  refine ⟨⌊subP (divP i1 i0) 1 * pow10 ((4:ℕ) : ℤ)⌋, ?_⟩
  rw [show (10000 : ℚ) = pow10 ((4:ℕ) : ℤ) by decide]
  exact div_mul_cancel₀ _ (ne_of_gt (pow10_pos _))

/-- Witness for claim C2 at I0 = 100.0, I1 = 110.5 (K = 0.1050). -/
theorem claim_C2_witness :
    (∃ m : ℤ, (21/200 : ℚ) * 10000 = (m : ℚ)) ∧
    (21/200 : ℚ) ≤ subP (divP (221/2) 100) 1 ∧
    (subP (divP (221/2) 100) 1 ≤ (221/2) / 100 - 1 →
      (21/200 : ℚ) ≤ (221/2) / 100 - 1) :=
  claim_C2_factor_granularity 100 (221/2) (21/200)
    (by norm_num) (by norm_num) (by decide)

/-- Claim C2, counterexample: with I0 = 1 and the 31-significant-digit
index I1 = 1.000999999999999999999999999999, the 28-digit half-even
division rounds the quotient up to 1.001000000000000000000000000, so the
engine returns K = 0.0010, strictly above the exact (I1 / I0) - 1: the
claimed bound K ≤ (I1 / I0) - 1 fails. -/
theorem claim_C2_counterexample :
    (0:ℚ) < 1 ∧ (0:ℚ) < 1 + (10 ^ 27 - 1) / 10 ^ 30 ∧
    calcular_fator_k_truncado 1 (1 + (10 ^ 27 - 1) / 10 ^ 30) = .ok (1/1000) ∧
    (1 + (10 ^ 27 - 1) / 10 ^ 30 : ℚ) / 1 - 1 < 1/1000 :=
  ⟨by norm_num, by norm_num, by decide, by norm_num⟩

/-- Claim C4, amended: calcular_fator_k_truncado fails with a
ValueError-kind (DomainError) error exactly when the base index is
nonpositive or the other index is negative; on the remaining inputs it
succeeds exactly when the floored factor coefficient fits the 28-digit
context, failing with InvalidOperation otherwise.  calcular_valor_reajuste
fails with a ValueError-kind error exactly when the measurement value is
negative, and on nonnegative measurement values succeeds exactly when the
floored product coefficient fits the 28-digit context.  The original
unconditional success claim fails on out-of-range results (see the
counterexample). -/
theorem claim_C4_domain_validation (i0 i1 vr k : ℚ) :
    (calcular_fator_k_truncado i0 i1 = .error .valueError ↔ i0 ≤ 0 ∨ i1 < 0) ∧
    ((∃ q, calcular_fator_k_truncado i0 i1 = .ok q) ↔
      0 < i0 ∧ 0 ≤ i1 ∧ (⌊subP (divP i1 i0) 1 * pow10 4⌋).natAbs < 10 ^ 28) ∧
    (calcular_valor_reajuste vr k = .error .valueError ↔ vr < 0) ∧
    ((∃ q, calcular_valor_reajuste vr k = .ok q) ↔
      0 ≤ vr ∧ (⌊mulP vr k * pow10 2⌋).natAbs < 10 ^ 28) := by
  refine ⟨?_, ?_, ?_, ?_⟩
  · unfold calcular_fator_k_truncado
    split_ifs with hz hneg
    · exact iff_of_true rfl (Or.inl hz.le)
    · exact iff_of_true rfl (hneg.imp le_of_lt id)
    · push_neg at hneg
      refine iff_of_false ?_ ?_
      · simp only [quantizeFloor]
        split_ifs
        · simp
        · simp
      · rintro (h | h)
        · exact hz (le_antisymm h hneg.1)
        · exact absurd h (not_lt.mpr hneg.2)
  · unfold calcular_fator_k_truncado
    split_ifs with hz hneg
    · refine iff_of_false (by simp) ?_
      rintro ⟨hpos, -, -⟩
      rw [hz] at hpos
      exact lt_irrefl 0 hpos
    · refine iff_of_false (by simp) ?_
      rintro ⟨hpos, hnn, -⟩
      rcases hneg with h | h
      · exact absurd hpos (not_lt.mpr h.le)
      · exact absurd h (not_lt.mpr hnn)
    · push_neg at hneg
      simp only [quantizeFloor]
      split_ifs with hb
      · exact iff_of_true ⟨_, rfl⟩
          ⟨lt_of_le_of_ne hneg.1 (Ne.symm hz), hneg.2, hb⟩
      · refine iff_of_false (by simp) ?_
        rintro ⟨-, -, h⟩
        exact hb h
  · unfold calcular_valor_reajuste
    split_ifs with hv
    · exact iff_of_true rfl hv
    · refine iff_of_false ?_ hv
      simp only [quantizeFloor]
      split_ifs
      · simp
      · simp
  · unfold calcular_valor_reajuste
    split_ifs with hv
    · refine iff_of_false (by simp) ?_
      rintro ⟨hnn, -⟩
      exact absurd hv (not_lt.mpr hnn)
    · simp only [quantizeFloor]
      split_ifs with hb
      · exact iff_of_true ⟨_, rfl⟩ ⟨not_lt.mp hv, hb⟩
      · refine iff_of_false (by simp) ?_
        rintro ⟨-, h⟩
        exact hb h

/-- Witness for claim C4: a zero base index and a negative measurement
value are rejected with the ValueError-kind error. -/
theorem claim_C4_witness :
    calcular_fator_k_truncado 0 1 = .error .valueError ∧
    calcular_valor_reajuste (-1) (1/2) = .error .valueError :=
  ⟨(claim_C4_domain_validation 0 1 (-1) (1/2)).1.mpr (Or.inl le_rfl),
   (claim_C4_domain_validation 0 1 (-1) (1/2)).2.2.1.mpr (by norm_num)⟩

/-- Claim C4, counterexample: with I0 = 1 and I1 = 10 ^ 30 (both valid
per the claim), the quantize step overflows the 28-digit context and the
code raises InvalidOperation instead of succeeding; likewise for the
product 10 ^ 30 * 1 in calcular_valor_reajuste. -/
theorem claim_C4_counterexample :
    calcular_fator_k_truncado 1 (10 ^ 30) = .error .invalidOperation ∧
    calcular_valor_reajuste (10 ^ 30) 1 = .error .invalidOperation ∧
    (∀ q : ℚ, calcular_fator_k_truncado 1 (10 ^ 30) ≠ .ok q) ∧
    (∀ q : ℚ, calcular_valor_reajuste (10 ^ 30) 1 ≠ .ok q) := by
  refine ⟨by decide, by decide, ?_, ?_⟩
  · intro q h
    rw [(by decide : calcular_fator_k_truncado 1 (10 ^ 30) =
      Except.error PyErr.invalidOperation)] at h
    exact Except.noConfusion h
  · intro q h
    rw [(by decide : calcular_valor_reajuste (10 ^ 30) 1 =
      Except.error PyErr.invalidOperation)] at h
    exact Except.noConfusion h

/-- Claim C7, amended: for valid inputs whose computed raw factor is
nonnegative (in particular whenever the index did not fall) and fits the
28-digit quantize capacity, the returned K is the raw factor truncated
toward zero at 4 decimals, never rounded; the scenario I0 = 105.0,
I1 = 105.6 returns 0.0057, not 0.0058.  In general the code floors toward
negative infinity, which differs from truncation toward zero on negative
raw factors (see the counterexample). -/
theorem claim_C7_truncation_toward_zero :
    ∀ i0 i1 : ℚ, 0 < i0 → 0 ≤ i1 →
      0 ≤ subP (divP i1 i0) 1 →
      (⌊subP (divP i1 i0) 1 * pow10 4⌋).natAbs < 10 ^ 28 →
      calcular_fator_k_truncado i0 i1 = .ok (truncTowardZero4 (subP (divP i1 i0) 1)) ∧
      calcular_fator_k_truncado 105 (1056/10) = .ok (57/10000) := by
  intro i0 i1 h0 h1 hraw hb
  constructor
  · unfold calcular_fator_k_truncado
    rw [if_neg h0.ne']
    rw [if_neg (by push_neg; exact ⟨h0.le, h1⟩ : ¬(i0 < 0 ∨ i1 < 0))]
    refine quantizeFloor_ok_iff.mpr ⟨hb, ?_⟩
    unfold truncTowardZero4
    rw [if_pos hraw, show (10000 : ℚ) = pow10 ((4:ℕ) : ℤ) by decide]
  · decide

/-- Witness for claim C7 at I0 = 105.0, I1 = 105.6. -/
theorem claim_C7_witness :
    calcular_fator_k_truncado 105 (1056/10) =
      .ok (truncTowardZero4 (subP (divP (1056/10) 105) 1)) :=
  (claim_C7_truncation_toward_zero 105 (1056/10)
    (by norm_num) (by norm_num) (by decide) (by decide)).1

/-- Claim C7, counterexample: for I0 = 105.5, I1 = 105.4 the raw factor
is negative and the code floors toward negative infinity, returning
K = -0.0010, while truncation toward zero of the raw factor would give
-0.0009: on falling indices the claimed toward-zero truncation fails. -/
theorem claim_C7_counterexample :
    calcular_fator_k_truncado (1055/10) (1054/10) = .ok (-(1/1000)) ∧
    truncTowardZero4 (subP (divP (1054/10) (1055/10)) 1) = -(9/10000) ∧
    (-(1/1000) : ℚ) ≠ -(9/10000) :=
  ⟨by decide, by decide, by decide⟩

/-- Claim C6: validar_intersticio_legal declares the interval valid
exactly when the whole-day difference reaches 365 days (365 valid, 364
invalid), and in both outcomes the returned message carries the exact day
count. -/
theorem claim_C6_interstice :
    ∀ b t : PyDate,
      ((validar_intersticio_legal b t).1 = true ↔
        365 ≤ t.toOrdinal - b.toOrdinal) ∧
      (t.toOrdinal - b.toOrdinal = 365 → (validar_intersticio_legal b t).1 = true) ∧
      (t.toOrdinal - b.toOrdinal = 364 → (validar_intersticio_legal b t).1 = false) ∧
      (∃ p s : String, (validar_intersticio_legal b t).2 =
        p ++ toString (t.toOrdinal - b.toOrdinal) ++ s) := by
  intro b t
  simp only [validar_intersticio_legal]
  split_ifs with h
  · refine ⟨iff_of_false (by simp) (not_le.mpr h), ?_, fun _ => rfl, ?_⟩
    · intro he
      rw [he] at h
      exact absurd h (by norm_num)
    · exact ⟨"Interstício legal não cumprido. Passaram-se ", _, rfl⟩
  · refine ⟨iff_of_true rfl (not_lt.mp h), fun _ => rfl, ?_, ?_⟩
    · intro he
      rw [he] at h
      exact absurd (by norm_num : (364:ℤ) < 365) h
    · exact ⟨"Interstício legal cumprido (", " dias desde a data base).", rfl⟩

/-- Witness for claim C6: 2023-01-01 to 2024-01-01 is exactly 365 days
and valid; 2023-01-01 to 2023-12-31 is 364 days and invalid. -/
theorem claim_C6_witness :
    (validar_intersticio_legal ⟨2023, 1, 1⟩ ⟨2024, 1, 1⟩).1 = true ∧
    (validar_intersticio_legal ⟨2023, 1, 1⟩ ⟨2023, 12, 31⟩).1 = false :=
  ⟨(claim_C6_interstice ⟨2023, 1, 1⟩ ⟨2024, 1, 1⟩).2.1 (by decide),
   (claim_C6_interstice ⟨2023, 1, 1⟩ ⟨2023, 12, 31⟩).2.2.1 (by decide)⟩

/-- Half-even rounding is symmetric under negation. -/
lemma roundHalfEven_neg (x : ℚ) : roundHalfEven (-x) = -roundHalfEven x := by
  simp only [roundHalfEven]
  by_cases hfr : Int.fract x = 0
  · obtain ⟨z, hz⟩ : ∃ z : ℤ, x = (z : ℚ) :=
      ⟨⌊x⌋, by have := Int.self_sub_floor x; rw [hfr] at this; linarith⟩
    subst hz
    rw [show (-(z:ℚ)) = ((-z : ℤ) : ℚ) by push_cast; ring]
    rw [Int.floor_intCast, Int.floor_intCast]
    norm_num
  · have h0 : 0 < Int.fract x := lt_of_le_of_ne (Int.fract_nonneg x) (Ne.symm hfr)
    have h1 : Int.fract x < 1 := Int.fract_lt_one x
    have hneg : Int.fract (-x) = 1 - Int.fract x := Int.fract_neg hfr
    have hfl : (⌊-x⌋ : ℚ) = -(⌊x⌋ : ℚ) - 1 := by
      have ha := Int.self_sub_floor x
      have hb := Int.self_sub_floor (-x)
      rw [hneg] at hb
      linarith
    have hflz : ⌊-x⌋ = -⌊x⌋ - 1 := by exact_mod_cast hfl
    have hsub : -x - (⌊-x⌋ : ℚ) = 1 - Int.fract x := by
      have hb := Int.self_sub_floor (-x)
      rw [hneg] at hb
      linarith
    have hsubx : x - (⌊x⌋ : ℚ) = Int.fract x := Int.self_sub_floor x
    rw [hsub, hsubx, hflz]
    rcases lt_trichotomy (Int.fract x) (1/2) with hlt | heq | hgt
    · rw [if_neg (show ¬(1 - Int.fract x < 1/2) by linarith),
        if_pos (show (1:ℚ)/2 < 1 - Int.fract x by linarith),
        if_pos hlt]
      ring
    · rw [if_neg (show ¬(1 - Int.fract x < 1/2) by rw [heq]; norm_num),
        if_neg (show ¬((1:ℚ)/2 < 1 - Int.fract x) by rw [heq]; norm_num),
        if_neg (show ¬(Int.fract x < 1/2) by rw [heq]; norm_num),
        if_neg (show ¬((1:ℚ)/2 < Int.fract x) by rw [heq]; norm_num)]
      have heven : Even (-⌊x⌋ - 1) ↔ ¬ Even ⌊x⌋ := by
        simp only [Int.even_iff]
        omega
      by_cases he : Even ⌊x⌋
      · rw [if_neg (fun hcon => (heven.mp hcon) he), if_pos he]
        ring
      · rw [if_pos (heven.mpr he), if_neg he]
        ring
    · rw [if_pos (show 1 - Int.fract x < 1/2 by linarith),
        if_neg (show ¬(Int.fract x < 1/2) by linarith),
        if_pos hgt]
      ring

/-- Below -99.5 the half-even rounding lands at or below -100. -/
lemma roundHalfEven_le_neg100 {x : ℚ} (h : x ≤ -(199/2)) :
    roundHalfEven x ≤ -100 := by
  simp only [roundHalfEven]
  have hfl : (⌊x⌋ : ℚ) ≤ x := Int.floor_le x
  have hfu : x < (⌊x⌋ : ℚ) + 1 := Int.lt_floor_add_one x
  split_ifs with ha hb hc
  · have hq : (⌊x⌋ : ℚ) < -99 := by linarith
    have hz : ⌊x⌋ < (-99 : ℤ) := by exact_mod_cast hq
    omega
  · have : (⌊x⌋ : ℚ) < -100 := by linarith
    have hz : ⌊x⌋ < (-100 : ℤ) := by exact_mod_cast this
    omega
  · have : (⌊x⌋ : ℚ) ≤ -100 := by linarith
    exact_mod_cast this
  · have h100 : (⌊x⌋ : ℚ) ≤ -100 := by linarith
    have hz : ⌊x⌋ ≤ (-100 : ℤ) := by exact_mod_cast h100
    rw [Int.even_iff] at hc
    omega

/-- Between -99.5 and 0 the half-even rounding stays in (-100, 0]. -/
lemma roundHalfEven_bounds {x : ℚ} (h1 : -(199/2) < x) (h2 : x < 0) :
    -100 < roundHalfEven x ∧ roundHalfEven x ≤ 0 := by
  simp only [roundHalfEven]
  have hfl : (⌊x⌋ : ℚ) ≤ x := Int.floor_le x
  have hfu : x < (⌊x⌋ : ℚ) + 1 := Int.lt_floor_add_one x
  have hup : ⌊x⌋ ≤ -1 := by
    have : (⌊x⌋ : ℚ) < 0 := lt_of_le_of_lt hfl h2
    have hz : ⌊x⌋ < (0 : ℤ) := by exact_mod_cast this
    omega
  split_ifs with ha hb hc
  · constructor
    · have : (-100 : ℚ) < ⌊x⌋ := by linarith
      exact_mod_cast this
    · omega
  · constructor
    · have : (-101 : ℚ) < ⌊x⌋ := by linarith
      have hz : (-101 : ℤ) < ⌊x⌋ := by exact_mod_cast this
      omega
    · omega
  · constructor
    · have hq : (-100 : ℚ) < ⌊x⌋ := by linarith
      exact_mod_cast hq
    · omega
  · constructor
    · have hq : (-100 : ℚ) < ⌊x⌋ := by linarith
      have hz : (-100 : ℤ) < ⌊x⌋ := by exact_mod_cast hq
      omega
    · omega

/-- Claim C10, amended: a negative value strictly between -0.995 and 0
is rendered exactly like its absolute value (the minus sign is dropped:
-0.50 renders as the 0.50 form), while every value at or below -0.995 —
in particular every value at or below -1 — keeps the minus sign in the
output.  The original boundary at -1 fails: values in (-1, -0.995] round
to -1.00 in the 2-decimal rendering and keep their sign (see the
counterexample). -/
theorem claim_C10_small_negative_sign :
    ∀ q : ℚ,
      (-(199/200) < q → q < 0 →
        format_brazilian_currency (Option.some q) =
          format_brazilian_currency (Option.some (-q))) ∧
      (q ≤ -(199/200) →
        ∃ r : String, format_brazilian_currency (Option.some q) = "R$ -" ++ r) ∧
      format_brazilian_currency (Option.some (-(1/2))) = "R$ 0,50" := by
  intro q
  refine ⟨?_, ?_, by decide⟩
  · intro h1 h2
    have hx1 : -(199/2) < q * 100 := by linarith
    have hx2 : q * 100 < 0 := by linarith
    obtain ⟨hl, hu⟩ := roundHalfEven_bounds hx1 hx2
    have hneg : roundHalfEven (-q * 100) = -roundHalfEven (q * 100) := by
      rw [show (-q) * 100 = -(q * 100) by ring, roundHalfEven_neg]
    have habs : (roundHalfEven (q * 100)).natAbs ≤ 99 := by omega
    have hdiv : (roundHalfEven (q * 100)).natAbs / 100 = 0 :=
      Nat.div_eq_of_lt (by omega)
    have h3 : currencyIntPart q = 0 := by
      unfold currencyIntPart
      rw [if_pos h2, hdiv]
      norm_num
    have h4 : currencyIntPart (-q) = 0 := by
      unfold currencyIntPart
      rw [if_neg (by linarith : ¬ (-q < 0)), hneg, Int.natAbs_neg, hdiv]
      norm_num
    simp only [format_brazilian_currency, h3, h4, hneg, Int.natAbs_neg]
  · intro h
    have hq0 : q < 0 := by linarith
    have hn : roundHalfEven (q * 100) ≤ -100 :=
      roundHalfEven_le_neg100 (by linarith)
    have habs : 100 ≤ (roundHalfEven (q * 100)).natAbs := by omega
    have hdiv : 1 ≤ (roundHalfEven (q * 100)).natAbs / 100 :=
      (Nat.one_le_div_iff (by norm_num)).mpr habs
    have hip : currencyIntPart q < 0 := by
      unfold currencyIntPart
      rw [if_pos hq0]
      simp only [Left.neg_neg_iff]
      exact_mod_cast hdiv
    refine ⟨groupThousands (currencyIntPart q).natAbs ++
      ("," ++ pad2 ((roundHalfEven (q * 100)).natAbs % 100)), ?_⟩
    simp only [format_brazilian_currency, groupThousandsInt, if_pos hip]
    simp only [← String.append_assoc]
    simp

/-- Witness for claim C10: -0.50 renders like 0.50, and -1.50 keeps the
minus sign. -/
theorem claim_C10_witness :
    format_brazilian_currency (Option.some (-(1/2))) =
      format_brazilian_currency (Option.some (-(-(1/2)))) ∧
    ∃ r : String, format_brazilian_currency (Option.some (-(3/2))) = "R$ -" ++ r :=
  ⟨(claim_C10_small_negative_sign (-(1/2))).1 (by norm_num) (by norm_num),
   (claim_C10_small_negative_sign (-(3/2))).2.1 (by norm_num)⟩

/-- Claim C10, counterexample: -0.999 lies strictly between -1 and 0,
yet its rendering keeps the minus sign (the 2-decimal rendering rounds it
to -1.00), contradicting the claim that every value in (-1, 0) drops the
sign. -/
theorem claim_C10_counterexample :
    (-1 : ℚ) < -(999/1000) ∧ (-(999/1000) : ℚ) < 0 ∧
    format_brazilian_currency (Option.some (-(999/1000))) = "R$ -1,00" ∧
    format_brazilian_currency (Option.some (-(999/1000))) ≠ "R$ 0,99" :=
  ⟨by norm_num, by norm_num, by decide, by decide⟩


end Reajuste
